import Mathlib

/-!
Verification development for the GrantPlatform eligibility and verification
rules engine.

The definitions below are a shallow embedding of the relevant parts of the
repository:

* `shared/constants.ts` — applicant types, registration steps, required
  documents, verification requirements, email-validation rules, status
  constants;
* `shared/schema.ts` — the entity shapes (with the database column defaults
  for `status` and `currentStep` applied at creation);
* the in-memory storage layer (`MemStorage`) — entity tables keyed by id;
* `server/registration-utils.ts` — registration-process creation, step
  advance, finalization, document verification, email admission, and the
  verification aggregator;
* `server/routes.ts` — the deterministic application scorer
  `generateAIEvaluation`.

Modelling conventions: JavaScript numbers are modelled as `Int` (all the
quantities involved are integers in the schema) and the scorer's ratio as a
rational; JavaScript truthiness of a number is `≠ 0`, of a string is `≠ ""`,
and `null`/`undefined` fields are `Option`; `Date` timestamp fields carry no
logical content and are omitted. Fallible operations return
`Except String α` together with the (possibly unchanged) storage state.
-/

namespace GrantPlatform

/-! ### Constants (`shared/constants.ts`) -/

namespace APPLICANT_TYPE

def ORGANIZATION : String := "organization"

def INDIVIDUAL : String := "individual"

def CORPORATION : String := "corporation"

end APPLICANT_TYPE

/-- `REGISTRATION_STEPS` keyed by applicant type name; unknown keys give `[]`
(JS property access yields `undefined`, and the only uses guard the key). -/
def REGISTRATION_STEPS (t : String) : List String :=
  if t = APPLICANT_TYPE.INDIVIDUAL then
    ["account_creation", "personal_information", "contact_details",
     "identity_verification", "complete_profile"]
  else if t = APPLICANT_TYPE.ORGANIZATION then
    ["account_creation", "organization_information", "legal_status",
     "contact_person", "documentation", "verification_submission"]
  else if t = APPLICANT_TYPE.CORPORATION then
    ["account_creation", "company_information", "legal_registration",
     "financial_information", "contact_person", "documentation",
     "verification_submission"]
  else []

/-- `REQUIRED_DOCUMENTS` keyed by applicant type name; the source reads it as
`REQUIRED_DOCUMENTS[name] || []`, so unknown keys give `[]`. -/
def REQUIRED_DOCUMENTS (t : String) : List String :=
  if t = APPLICANT_TYPE.INDIVIDUAL then
    ["id_card_passport", "resume_cv", "motivation_letter", "signed_declaration"]
  else if t = APPLICANT_TYPE.ORGANIZATION then
    ["registration_certificate", "organization_statute", "board_decision",
     "tax_id_document", "authorized_person_declaration"]
  else if t = APPLICANT_TYPE.CORPORATION then
    ["business_registration", "tax_id_document", "bank_statement",
     "legal_representative_declaration"]
  else []

/-- `VERIFICATION_REQUIREMENTS` keyed by document type; the source reads it as
`VERIFICATION_REQUIREMENTS[documentType] || []`. -/
def VERIFICATION_REQUIREMENTS (documentType : String) : List String :=
  if documentType = "id_card_passport" then
    ["document_type", "full_name", "document_number", "expiry_date", "issuing_authority"]
  else if documentType = "resume_cv" then
    ["full_name", "education", "experience", "min_length_words_300"]
  else if documentType = "motivation_letter" then
    ["purpose", "goals", "min_length_words_300"]
  else if documentType = "signed_declaration" then
    ["full_name", "signature", "date"]
  else if documentType = "registration_certificate" then
    ["organization_name", "registration_number", "registration_date", "issuing_authority"]
  else if documentType = "organization_statute" then
    ["organization_name", "purpose", "governance_structure"]
  else if documentType = "board_decision" then
    ["organization_name", "decision_date", "signatures", "meeting_reference"]
  else if documentType = "tax_id_document" then
    ["entity_name", "tax_id_number", "issue_date"]
  else if documentType = "authorized_person_declaration" then
    ["full_name", "position", "signature", "date"]
  else if documentType = "business_registration" then
    ["company_name", "registration_number", "registration_date", "legal_structure"]
  else if documentType = "bank_statement" then
    ["account_number", "bank_name", "account_holder_name", "statement_date"]
  else if documentType = "legal_representative_declaration" then
    ["full_name", "position", "signature", "date"]
  else []

namespace REGISTRATION_STATUS

def INCOMPLETE : String := "incomplete"

def PENDING_VERIFICATION : String := "pending_verification"

def VERIFIED : String := "verified"

def REJECTED : String := "rejected"

end REGISTRATION_STATUS

namespace DOCUMENT_VERIFICATION_STATUS

def PENDING : String := "pending"

def APPROVED : String := "approved"

def REJECTED : String := "rejected"

def REQUIRES_RESUBMISSION : String := "requires_resubmission"

end DOCUMENT_VERIFICATION_STATUS

/-- The disallowed personal-email domains shared by the organization and
corporation rules in `EMAIL_VALIDATION`. -/
def disallowedDomains : List String :=
  ["gmail.com", "yahoo.com", "hotmail.com", "outlook.com", "gmail.ba", "yahoo.ba"]

/-- String suffix test on the underlying character lists (the semantics of
JS `endsWith` and of an anchored `…$` regex). -/
def strEndsWith (s suffix : String) : Bool :=
  suffix.data.isSuffixOf s.data

/-- The organization domain pattern `/\.(org|ngo|ba|net|com)$/` as a test on
the domain string. -/
def orgDomainPattern (domain : String) : Bool :=
  strEndsWith domain ".org" || strEndsWith domain ".ngo" || strEndsWith domain ".ba" ||
    strEndsWith domain ".net" || strEndsWith domain ".com"

/-- One entry of `EMAIL_VALIDATION`: `pattern` and `disallowed_domains` are
`null`able in the source. -/
structure EmailRules where
  pattern : Option (String → Bool)
  disallowed_domains : Option (List String)

/-- `EMAIL_VALIDATION` keyed by applicant type name; unknown keys give
`undefined` (`none`). -/
def EMAIL_VALIDATION (t : String) : Option EmailRules :=
  if t = APPLICANT_TYPE.INDIVIDUAL then
    some { pattern := none, disallowed_domains := none }
  else if t = APPLICANT_TYPE.ORGANIZATION then
    some { pattern := some orgDomainPattern, disallowed_domains := some disallowedDomains }
  else if t = APPLICANT_TYPE.CORPORATION then
    some { pattern := none, disallowed_domains := some disallowedDomains }
  else none

/-! ### Entities (`shared/schema.ts`) -/

structure ApplicantType where
  id : Nat
  name : String
deriving DecidableEq, Repr

structure RegistrationProcess where
  id : Nat
  userId : Nat
  applicantTypeId : Nat
  status : String
  currentStep : Nat
  totalSteps : Nat
  completedSteps : List String
  rejectionReason : Option String
deriving DecidableEq, Repr

structure User where
  id : Nat
  isVerified : Bool
deriving DecidableEq, Repr

structure VerificationDocument where
  id : Nat
  userId : Nat
  registrationProcessId : Nat
  documentType : String
  filePath : String
  verificationStatus : String
  aiVerified : Bool
  aiVerificationScore : Nat
deriving DecidableEq, Repr

/-! ### Storage (`MemStorage`, in-memory keyed tables) -/

structure Storage where
  applicantTypes : List ApplicantType
  users : List User
  registrationProcesses : List RegistrationProcess
  verificationDocuments : List VerificationDocument
  currentRegistrationProcessId : Nat
deriving DecidableEq, Repr

def Storage.getApplicantType (st : Storage) (id : Nat) : Option ApplicantType :=
  st.applicantTypes.find? (fun t => t.id == id)

def Storage.getRegistrationProcess (st : Storage) (id : Nat) : Option RegistrationProcess :=
  st.registrationProcesses.find? (fun p => p.id == id)

def Storage.getVerificationDocument (st : Storage) (id : Nat) : Option VerificationDocument :=
  st.verificationDocuments.find? (fun d => d.id == id)

def Storage.getVerificationDocumentsByRegistrationProcess
    (st : Storage) (registrationProcessId : Nat) : List VerificationDocument :=
  st.verificationDocuments.filter (fun d => d.registrationProcessId == registrationProcessId)

/-- `MemStorage.updateRegistrationProcess` merged with an already-fetched
record: replace the stored record with the updated one (keys are unique ids). -/
def Storage.setRegistrationProcess (st : Storage) (p : RegistrationProcess) : Storage :=
  { st with registrationProcesses :=
      st.registrationProcesses.map (fun q => if q.id == p.id then p else q) }

/-- `MemStorage.updateUser(userId, { isVerified: true })`. -/
def Storage.setUserVerified (st : Storage) (userId : Nat) : Storage :=
  { st with users := st.users.map (fun u => if u.id == userId then { u with isVerified := true } else u) }

def Storage.setVerificationDocument (st : Storage) (d : VerificationDocument) : Storage :=
  { st with verificationDocuments :=
      st.verificationDocuments.map (fun e => if e.id == d.id then d else e) }

/-! ### Registration engine (`server/registration-utils.ts`) -/

/-- `createRegistrationProcess(userId, applicantTypeId)`. The stored record
gets the schema defaults `status = "incomplete"`, `currentStep = 1`, and the
absent `completedSteps` is modelled as `[]` (every reader normalizes it with
`|| []`). -/
def createRegistrationProcess (st : Storage) (userId applicantTypeId : Nat) :
    Except String RegistrationProcess × Storage :=
  match st.getApplicantType applicantTypeId with
  | none => (.error "Invalid applicant type", st)
  | some applicantType =>
    let totalSteps :=
      if applicantType.name = APPLICANT_TYPE.INDIVIDUAL then
        (REGISTRATION_STEPS APPLICANT_TYPE.INDIVIDUAL).length
      else if applicantType.name = APPLICANT_TYPE.ORGANIZATION then
        (REGISTRATION_STEPS APPLICANT_TYPE.ORGANIZATION).length
      else if applicantType.name = APPLICANT_TYPE.CORPORATION then
        (REGISTRATION_STEPS APPLICANT_TYPE.CORPORATION).length
      else 5
    let p : RegistrationProcess :=
      { id := st.currentRegistrationProcessId
        userId := userId
        applicantTypeId := applicantTypeId
        status := REGISTRATION_STATUS.INCOMPLETE
        currentStep := 1
        totalSteps := totalSteps
        completedSteps := []
        rejectionReason := none }
    (.ok p,
     { st with
        registrationProcesses := st.registrationProcesses ++ [p]
        currentRegistrationProcessId := st.currentRegistrationProcessId + 1 })

/-- The `completedSteps` update of `updateRegistrationStep`:
`if (completedStep && !completedSteps.includes(completedStep))` append. -/
def addCompletedStep (completedSteps : List String) (completedStep : Option String) :
    List String :=
  match completedStep with
  | some s => if s != "" && !(completedSteps.contains s) then completedSteps ++ [s] else completedSteps
  | none => completedSteps

/-- `updateRegistrationStep(registrationProcessId, newStep, completedStep?)`. -/
def updateRegistrationStep (st : Storage) (registrationProcessId newStep : Nat)
    (completedStep : Option String) : Except String RegistrationProcess × Storage :=
  match st.getRegistrationProcess registrationProcessId with
  | none => (.error "Registration process not found", st)
  | some process =>
    let completedSteps := addCompletedStep process.completedSteps completedStep
    let status :=
      if completedSteps.length ≥ process.totalSteps then
        REGISTRATION_STATUS.PENDING_VERIFICATION
      else
        REGISTRATION_STATUS.INCOMPLETE
    let updated := { process with
      currentStep := newStep
      completedSteps := completedSteps
      status := status }
    (.ok updated, st.setRegistrationProcess updated)

/-- `rejectionReason || null`: an absent or empty string becomes `null`. -/
def jsStringOrNull (s : Option String) : Option String :=
  match s with
  | some v => if v = "" then none else some v
  | none => none

/-- `verifyRegistrationProcess(registrationProcessId, adminId, approved,
rejectionReason?)`; `adminId` is accepted but unused, as in the source. -/
def verifyRegistrationProcess (st : Storage) (registrationProcessId adminId : Nat)
    (approved : Bool) (rejectionReason : Option String) :
    Except String RegistrationProcess × Storage :=
  match st.getRegistrationProcess registrationProcessId with
  | none => (.error "Registration process not found", st)
  | some process =>
    let status := if approved then REGISTRATION_STATUS.VERIFIED else REGISTRATION_STATUS.REJECTED
    let st1 := if approved then st.setUserVerified process.userId else st
    let updated := { process with
      status := status
      rejectionReason := jsStringOrNull rejectionReason }
    (.ok updated, st1.setRegistrationProcess updated)

/-- JS `String.prototype.replace` with a string needle replaces only the first
occurrence; the source calls `field.replace('_', ' ')`. -/
def replaceFirstChar : List Char → Char → Char → List Char
  | [], _, _ => []
  | c :: cs, a, b => if c = a then b :: cs else c :: replaceFirstChar cs a b

structure AIDocVerificationResult where
  verified : Bool
  score : Nat
  extractedFields : List (String × String)
  message : Option String
deriving DecidableEq, Repr

/-- `performAIDocumentVerification(documentPath, documentType)` — the
deterministic stand-in scorer: always score 87 with sample fields. -/
def performAIDocumentVerification (documentPath documentType : String) :
    AIDocVerificationResult :=
  let requirements := VERIFICATION_REQUIREMENTS documentType
  { verified := true
    score := 87
    extractedFields :=
      requirements.map (fun field =>
        (field, "Sample " ++ String.mk (replaceFirstChar field.data '_' ' ')))
    message := some "Document appears to be valid and all required information was successfully extracted." }

/-- The score → status derivation of `validateDocumentWithAI` (lines 167–182):
the local `verificationStatus` cascade plus the `score >= 85 ? APPROVED : …`
ternary in the update record. -/
def deriveVerificationStatus (score : Nat) : String :=
  let verificationStatus :=
    if 85 ≤ score then DOCUMENT_VERIFICATION_STATUS.APPROVED
    else if 60 ≤ score then DOCUMENT_VERIFICATION_STATUS.PENDING
    else DOCUMENT_VERIFICATION_STATUS.REQUIRES_RESUBMISSION
  if 85 ≤ score then DOCUMENT_VERIFICATION_STATUS.APPROVED else verificationStatus

/-- `validateDocumentWithAI(documentId)`. -/
def validateDocumentWithAI (st : Storage) (documentId : Nat) :
    Except String VerificationDocument × Storage :=
  match st.getVerificationDocument documentId with
  | none => (.error "Document not found", st)
  | some document =>
    let aiVerificationResult :=
      performAIDocumentVerification document.filePath document.documentType
    let updated := { document with
      aiVerified := true
      aiVerificationScore := aiVerificationResult.score
      verificationStatus := deriveVerificationStatus aiVerificationResult.score }
    (.ok updated, st.setVerificationDocument updated)

structure EmailValidationResult where
  valid : Bool
  message : Option String
deriving DecidableEq, Repr

/-- Split a character list at every occurrence of `sep`, keeping empty
pieces, as JS `String.prototype.split` with a one-character separator does. -/
def splitCharAux (sep : Char) : List Char → List (List Char)
  | [] => [[]]
  | c :: cs =>
    match splitCharAux sep cs with
    | r :: rs => if c = sep then [] :: r :: rs else (c :: r) :: rs
    | [] => [[c]]

/-- JS `s.split(sep)` for a one-character separator. -/
def jsSplit (s : String) (sep : Char) : List String :=
  (splitCharAux sep s.data).map String.mk

/-- JS `toLowerCase`, character by character. -/
def jsToLower (s : String) : String :=
  String.mk (s.data.map Char.toLower)

/-- `validateEmailForApplicantType(email, applicantType)`. The domain is
`email.split('@')[1]?.toLowerCase()`; `!domain` catches both a missing index
and an empty string. -/
def validateEmailForApplicantType (email applicantType : String) :
    EmailValidationResult :=
  if email = "" then { valid := false, message := some "Email is required" }
  else
    match (jsSplit email '@')[1]? with
    | none => { valid := false, message := some "Invalid email format" }
    | some rawDomain =>
      let domain := jsToLower rawDomain
      if domain = "" then { valid := false, message := some "Invalid email format" }
      else
        match EMAIL_VALIDATION applicantType with
        | none => { valid := true, message := none }
        | some validationRules =>
          if applicantType = APPLICANT_TYPE.INDIVIDUAL then
            { valid := true, message := none }
          else if (match validationRules.disallowed_domains with
                   | some ds => ds.contains domain
                   | none => false) then
            { valid := false
              message := some
                ((if applicantType = APPLICANT_TYPE.ORGANIZATION then "Organizations"
                  else "Corporations") ++
                 " cannot use personal email domains like gmail.com, yahoo.com, etc.") }
          else if applicantType = APPLICANT_TYPE.ORGANIZATION &&
                  (match validationRules.pattern with
                   | some p => !(p domain)
                   | none => false) then
            { valid := false
              message := some "Organizations should use official domain names ending with .org, .ngo, .ba, .net, or .com" }
          else
            { valid := true, message := none }

structure DocumentCheckResult where
  allUploaded : Bool
  allVerified : Bool
  pendingDocuments : List String
  rejectedDocuments : List String
deriving DecidableEq, Repr

/-- The document types of a process's uploads whose status is `approved`
(with multiplicity), as computed inside `checkDocumentVerificationStatus`. -/
def approvedDocTypes (st : Storage) (registrationProcessId : Nat) : List String :=
  ((st.getVerificationDocumentsByRegistrationProcess registrationProcessId).filter
    (fun d => d.verificationStatus == DOCUMENT_VERIFICATION_STATUS.APPROVED)).map
    (fun d => d.documentType)

/-- `checkDocumentVerificationStatus(registrationProcessId)`; read-only, so
only the result is returned. -/
def checkDocumentVerificationStatus (st : Storage) (registrationProcessId : Nat) :
    Except String DocumentCheckResult :=
  match st.getRegistrationProcess registrationProcessId with
  | none => .error "Registration process not found"
  | some process =>
    match st.getApplicantType process.applicantTypeId with
    | none => .error "Applicant type not found"
    | some applicantType =>
      let documents := st.getVerificationDocumentsByRegistrationProcess registrationProcessId
      let requiredDocs := REQUIRED_DOCUMENTS applicantType.name
      let uploadedDocTypes := documents.map (fun d => d.documentType)
      let verifiedDocTypes :=
        (documents.filter
          (fun d => d.verificationStatus == DOCUMENT_VERIFICATION_STATUS.APPROVED)).map
          (fun d => d.documentType)
      let pendingDocuments := requiredDocs.filter (fun d => !(uploadedDocTypes.contains d))
      let rejectedDocuments :=
        (documents.filter
          (fun d => d.verificationStatus == DOCUMENT_VERIFICATION_STATUS.REJECTED ||
                    d.verificationStatus == DOCUMENT_VERIFICATION_STATUS.REQUIRES_RESUBMISSION)).map
          (fun d => d.documentType)
      .ok { allUploaded := pendingDocuments.length == 0
            allVerified := verifiedDocTypes.length == requiredDocs.length
            pendingDocuments := pendingDocuments
            rejectedDocuments := rejectedDocuments }

/-! ### Application scorer (`server/routes.ts`, `generateAIEvaluation`) -/

/-- The fields of `Application` consumed by the scorer (all nullable in the
schema). -/
structure Application where
  id : Nat
  requestedAmount : Option Int
  projectDuration : Option Int
  organization : Option String
  description : Option String
deriving DecidableEq, Repr

structure Program where
  id : Nat
  name : String
  budgetTotal : Int
deriving DecidableEq, Repr

structure AIEvaluationResult where
  score : Int
  decision : String
  strengths : List String
  weaknesses : List String
  recommendation : String
deriving DecidableEq, Repr

/-- The budget-ratio rule (`if (application.requestedAmount &&
program.budgetTotal) { … }`): score delta, strengths, weaknesses. A rule
fires only when both numbers are truthy (non-null and nonzero). -/
def budgetRule (application : Application) (program : Program) :
    Int × List String × List String :=
  match application.requestedAmount with
  | some requestedAmount =>
    if requestedAmount ≠ 0 ∧ program.budgetTotal ≠ 0 then
      if (requestedAmount : ℚ) / (program.budgetTotal : ℚ) < 1/10 then
        (10, ["Reasonable budget request relative to program size"], [])
      else if (requestedAmount : ℚ) / (program.budgetTotal : ℚ) > 3/10 then
        (-15, [], ["Requested amount is significant portion of total program budget"])
      else (0, [], [])
    else (0, [], [])
  | none => (0, [], [])

/-- The description-completeness rule (`if (application.description &&
application.description.length > 300)`). -/
def descriptionRule (application : Application) : Int × List String × List String :=
  match application.description with
  | some description =>
    if description ≠ "" ∧ description.length > 300 then
      (5, ["Detailed project description provided"], [])
    else (-5, [], ["Project description could be more comprehensive"])
  | none => (-5, [], ["Project description could be more comprehensive"])

/-- The organization-information rule (`if (application.organization)`): the
else branch records a weakness but leaves the score unchanged. -/
def organizationRule (application : Application) : Int × List String × List String :=
  match application.organization with
  | some organization =>
    if organization ≠ "" then (5, ["Clear organizational information provided"], [])
    else (0, [], ["Missing organizational details"])
  | none => (0, [], ["Missing organizational details"])

/-- The project-duration rule (`if (application.projectDuration)` with the
`> 24` / `< 6` branches). -/
def durationRule (application : Application) : Int × List String × List String :=
  match application.projectDuration with
  | some projectDuration =>
    if projectDuration ≠ 0 then
      if projectDuration > 24 then
        (-5, [], ["Project timeline may be too long for effective monitoring"])
      else if projectDuration < 6 then
        (5, ["Project has focused, achievable timeline"], [])
      else (0, [], [])
    else (0, [], [])
  | none => (0, [], [])

/-- `generateAIEvaluation(application, program, applicant)`: base score 75,
the four rules applied in source order (each adjusts the score and appends
insights), then the decision thresholds. The `applicant` argument is not
consumed by any rule, and the free-text `comment` only interpolates the
pieces returned here. -/
def generateAIEvaluation (application : Application) (program : Program) :
    AIEvaluationResult :=
  let b := budgetRule application program
  let d := descriptionRule application
  let o := organizationRule application
  let t := durationRule application
  let score : Int := 75 + b.1 + d.1 + o.1 + t.1
  let strengths := b.2.1 ++ d.2.1 ++ o.2.1 ++ t.2.1
  let weaknesses := b.2.2 ++ d.2.2 ++ o.2.2 ++ t.2.2
  let decisionAndRecommendation :=
    if score ≥ 80 then
      ("preporučeno",
       "This application shows strong potential for success and alignment with program goals.")
    else if score < 60 then
      ("odbijeno",
       "This application has several areas that need improvement before it can be recommended.")
    else
      ("revisit",
       "This application has potential but requires further discussion and possibly additional information.")
  { score := score
    decision := decisionAndRecommendation.1
    strengths := strengths
    weaknesses := weaknesses
    recommendation := decisionAndRecommendation.2 }

/-- The budget-ratio rule as the specification words it: whenever
`budgetTotal > 0`, the ratio (an absent requested amount counting as 0) is
compared against the thresholds, with no truthiness guard on the amount. -/
def specBudgetDelta (application : Application) (program : Program) : Int :=
  if 0 < program.budgetTotal then
    if ((application.requestedAmount.getD 0 : Int) : ℚ) / (program.budgetTotal : ℚ) < 1/10 then 10
    else if ((application.requestedAmount.getD 0 : Int) : ℚ) / (program.budgetTotal : ℚ) > 3/10 then -15
    else 0
  else 0

/-! ### Concrete fixtures for witnesses and counterexamples -/

def individualType : ApplicantType := { id := 1, name := "individual" }

def baseProcess : RegistrationProcess :=
  { id := 1
    userId := 1
    applicantTypeId := 1
    status := REGISTRATION_STATUS.INCOMPLETE
    currentStep := 1
    totalSteps := 5
    completedSteps := []
    rejectionReason := none }

def baseUser : User := { id := 1, isVerified := false }

def baseStorage : Storage :=
  { applicantTypes := [individualType]
    users := [baseUser]
    registrationProcesses := [baseProcess]
    verificationDocuments := []
    currentRegistrationProcessId := 2 }

/-- A process that an administrator has already finalized to `verified`. -/
def verifiedProcess : RegistrationProcess :=
  { baseProcess with
      status := REGISTRATION_STATUS.VERIFIED
      currentStep := 5
      completedSteps := ["account_creation", "personal_information", "contact_details",
                         "identity_verification", "complete_profile"] }

def verifiedStorage : Storage :=
  { baseStorage with registrationProcesses := [verifiedProcess] }

/-- An approved upload of the given document type for process 1. -/
def approvedDoc (id : Nat) (documentType : String) : VerificationDocument :=
  { id := id
    userId := 1
    registrationProcessId := 1
    documentType := documentType
    filePath := "/uploads/doc"
    verificationStatus := DOCUMENT_VERIFICATION_STATUS.APPROVED
    aiVerified := true
    aiVerificationScore := 90 }

/-- Four approved uploads that are all duplicates of one required type:
`verifiedDocTypes.length = 4 = requiredDocs.length` although three required
types have no approved upload. -/
def duplicateUploadStorage : Storage :=
  { baseStorage with
      verificationDocuments :=
        [approvedDoc 1 "id_card_passport", approvedDoc 2 "id_card_passport",
         approvedDoc 3 "id_card_passport", approvedDoc 4 "id_card_passport"] }

/-- One approved upload per required type except `signed_declaration`. -/
def missingOneStorage : Storage :=
  { baseStorage with
      verificationDocuments :=
        [approvedDoc 1 "id_card_passport", approvedDoc 2 "resume_cv",
         approvedDoc 3 "motivation_letter"] }

def emptyStorage : Storage :=
  { applicantTypes := []
    users := []
    registrationProcesses := []
    verificationDocuments := []
    currentRegistrationProcessId := 1 }

/-- A 350-character description for the first scorer test vector. -/
def longDescription : String := String.mk (List.replicate 350 'a')

/-- A 50-character description for the second scorer test vector. -/
def shortDescription : String := String.mk (List.replicate 50 'a')

def scorerApp1 : Application :=
  { id := 1
    requestedAmount := some 5000
    projectDuration := some 4
    organization := some "X"
    description := some longDescription }

def scorerApp2 : Application :=
  { id := 2
    requestedAmount := some 40000
    projectDuration := some 30
    organization := none
    description := some shortDescription }

/-- An application whose requested amount is the number 0 — falsy in JS. -/
def zeroAmountApp : Application :=
  { id := 3
    requestedAmount := some 0
    projectDuration := none
    organization := none
    description := none }

def scorerProgram : Program := { id := 1, name := "P", budgetTotal := 100000 }

/-- The record produced by `createRegistrationProcess baseStorage 7 1`. -/
def createdProcessFixture : RegistrationProcess :=
  { id := 2
    userId := 7
    applicantTypeId := 1
    status := REGISTRATION_STATUS.INCOMPLETE
    currentStep := 1
    totalSteps := 5
    completedSteps := []
    rejectionReason := none }

/-- `baseProcess` after an advance to step 3 with no completed step. -/
def advancedProcessFixture : RegistrationProcess := { baseProcess with currentStep := 3 }

/-- `baseProcess` after one advance completing `"account_creation"`. -/
def advOnceFixture : RegistrationProcess :=
  { baseProcess with currentStep := 3, completedSteps := ["account_creation"] }

/-- `advOnceFixture` after a second advance completing `"account_creation"`
again. -/
def advTwiceFixture : RegistrationProcess :=
  { baseProcess with currentStep := 4, completedSteps := ["account_creation"] }

/-! ### Helper lemmas -/

/-- Every required-document list produced by the registry is duplicate-free. -/
theorem REQUIRED_DOCUMENTS_nodup (t : String) : (REQUIRED_DOCUMENTS t).Nodup := by
  unfold REQUIRED_DOCUMENTS
  split_ifs <;> decide

/-- The decision of `generateAIEvaluation` is the threshold cascade applied to
its own score. -/
theorem generateAIEvaluation_decision_eq (application : Application) (program : Program) :
    (generateAIEvaluation application program).decision =
      (if 80 ≤ (generateAIEvaluation application program).score then "preporučeno"
       else if (generateAIEvaluation application program).score < 60 then "odbijeno"
       else "revisit") := by
  unfold generateAIEvaluation
  dsimp only [ge_iff_le]
  simp only [apply_ite Prod.fst]

/-- The score delta of the budget rule is one of `10`, `-15`, `0`. -/
theorem budgetRule_fst_cases (application : Application) (program : Program) :
    (budgetRule application program).1 = 10 ∨ (budgetRule application program).1 = -15 ∨
      (budgetRule application program).1 = 0 := by
  unfold budgetRule
  rcases application.requestedAmount with _ | a <;> simp <;> split_ifs <;> simp

/-- The score delta of the description rule is one of `5`, `-5`. -/
theorem descriptionRule_fst_cases (application : Application) :
    (descriptionRule application).1 = 5 ∨ (descriptionRule application).1 = -5 := by
  unfold descriptionRule
  rcases application.description with _ | d <;> simp <;> split_ifs <;> simp

/-- The score delta of the organization rule is one of `5`, `0`. -/
theorem organizationRule_fst_cases (application : Application) :
    (organizationRule application).1 = 5 ∨ (organizationRule application).1 = 0 := by
  unfold organizationRule
  rcases application.organization with _ | o <;> simp <;> split_ifs <;> simp

/-- The score delta of the duration rule is one of `-5`, `5`, `0`. -/
theorem durationRule_fst_cases (application : Application) :
    (durationRule application).1 = -5 ∨ (durationRule application).1 = 5 ∨
      (durationRule application).1 = 0 := by
  unfold durationRule
  rcases application.projectDuration with _ | d <;> simp <;> split_ifs <;> simp

/-- The score is the base 75 plus the four rule deltas. -/
theorem generateAIEvaluation_score_eq (application : Application) (program : Program) :
    (generateAIEvaluation application program).score =
      75 + (budgetRule application program).1 + (descriptionRule application).1 +
        (organizationRule application).1 + (durationRule application).1 := rfl

/-- Replacing the record found by id in a list leaves that replacement as the
record found afterwards. -/
theorem find?_map_replace (l : List RegistrationProcess) (rpId : Nat)
    (p p2 : RegistrationProcess)
    (h : l.find? (fun q => q.id == rpId) = some p) (hid : p2.id = p.id) :
    (l.map (fun q => if q.id == p2.id then p2 else q)).find?
      (fun q => q.id == rpId) = some p2 := by
  have hpid : p.id = rpId := by
    have hp := List.find?_some h
    simpa using hp
  induction l with
  | nil => simp at h
  | cons a l ih =>
    by_cases ha : a.id = rpId
    · rw [List.find?_cons_of_pos _ (by simpa using ha)] at h
      obtain rfl := Option.some.inj h
      rw [List.map_cons, if_pos (by simp [hid])]
      exact List.find?_cons_of_pos _ (by simp [hid, hpid])
    · rw [List.find?_cons_of_neg _ (by simpa using ha)] at h
      rw [List.map_cons, if_neg (by simp [hid, hpid]; exact ha)]
      rw [List.find?_cons_of_neg _ (by simpa using ha)]
      exact ih h

/-- The record `updateRegistrationStep` stores for a fetched process `p`,
new step `n` and optional completed step `c`. -/
def advancedRecord (p : RegistrationProcess) (n : Nat) (c : Option String) :
    RegistrationProcess :=
  { p with
    currentStep := n
    completedSteps := addCompletedStep p.completedSteps c
    status := if (addCompletedStep p.completedSteps c).length ≥ p.totalSteps then
        REGISTRATION_STATUS.PENDING_VERIFICATION
      else REGISTRATION_STATUS.INCOMPLETE }

/-- Characterization of a successful advance. -/
theorem updateRegistrationStep_ok (st : Storage) (rpId n : Nat) (c : Option String)
    (p : RegistrationProcess) (hg : st.getRegistrationProcess rpId = some p) :
    updateRegistrationStep st rpId n c =
      (.ok (advancedRecord p n c), st.setRegistrationProcess (advancedRecord p n c)) := by
  unfold updateRegistrationStep advancedRecord
  rw [hg]

/-- After replacing a fetched process, the replacement is what a fresh fetch
returns. -/
theorem getRegistrationProcess_setRegistrationProcess (st : Storage) (rpId : Nat)
    (p q : RegistrationProcess) (hg : st.getRegistrationProcess rpId = some p)
    (hid : q.id = p.id) :
    (st.setRegistrationProcess q).getRegistrationProcess rpId = some q := by
  unfold Storage.getRegistrationProcess at hg
  unfold Storage.setRegistrationProcess Storage.getRegistrationProcess
  exact find?_map_replace _ _ p q hg hid

/-- Completing the same step twice adds it at most once. -/
theorem addCompletedStep_some_idem (cs : List String) (s : String) :
    addCompletedStep (addCompletedStep cs (some s)) (some s) =
      addCompletedStep cs (some s) := by
  unfold addCompletedStep
  by_cases he : s = ""
  · simp [he]
  · by_cases hm : s ∈ cs
    · simp [he, hm]
    · simp [he, hm]

/-- The `completedSteps` update preserves duplicate-freedom. -/
theorem addCompletedStep_nodup (cs : List String) (c : Option String)
    (h : cs.Nodup) : (addCompletedStep cs c).Nodup := by
  unfold addCompletedStep
  cases c with
  | none => exact h
  | some s =>
    dsimp only
    split_ifs with hc
    · have hs : s ∉ cs := by
        have h2 := (Bool.and_eq_true ..).mp hc |>.2
        simpa using h2
      simp [List.nodup_append, h, hs]
    · exact h

/-- A duplicate-free list whose members all lie in a duplicate-free list `R`
but avoid one member of `R` is strictly shorter than `R`. -/
theorem length_lt_of_nodup_subset_avoiding (A R : List String) (m : String)
    (hA : A.Nodup) (hR : R.Nodup) (hsub : ∀ t ∈ A, t ∈ R) (hm : m ∈ R)
    (hmA : m ∉ A) : A.length < R.length := by
  have hsub2 : A.toFinset ⊆ R.toFinset.erase m := by
    intro t ht
    rw [List.mem_toFinset] at ht
    refine Finset.mem_erase.mpr ⟨?_, List.mem_toFinset.mpr (hsub t ht)⟩
    rintro rfl
    exact hmA ht
  have hcard := Finset.card_le_card hsub2
  rw [Finset.card_erase_of_mem (List.mem_toFinset.mpr hm)] at hcard
  have hA' : A.toFinset.card = A.length := List.toFinset_card_of_nodup hA
  have hR' : R.toFinset.card = R.length := List.toFinset_card_of_nodup hR
  have hpos : 0 < R.toFinset.card := Finset.card_pos.mpr ⟨m, List.mem_toFinset.mpr hm⟩
  omega

/-! ### Claim theorems -/

/-- C7: for every AI verification score, the status derived by
`validateDocumentWithAI` is `approved` for scores ≥ 85, `pending` for
60 ≤ score < 85, `requires_resubmission` for scores < 60 (both boundaries
belong to the upper branch), and is never `rejected`. -/
theorem C7_document_status_derivation :
    ∀ score : Nat,
      (85 ≤ score → deriveVerificationStatus score = DOCUMENT_VERIFICATION_STATUS.APPROVED) ∧
      (60 ≤ score ∧ score < 85 →
        deriveVerificationStatus score = DOCUMENT_VERIFICATION_STATUS.PENDING) ∧
      (score < 60 →
        deriveVerificationStatus score = DOCUMENT_VERIFICATION_STATUS.REQUIRES_RESUBMISSION) ∧
      deriveVerificationStatus score ≠ DOCUMENT_VERIFICATION_STATUS.REJECTED := by
  intro score
  unfold deriveVerificationStatus
  refine ⟨fun h => ?_, fun h => ?_, fun h => ?_, ?_⟩ <;> split_ifs <;>
    first
      | rfl
      | omega
      | simp [DOCUMENT_VERIFICATION_STATUS.APPROVED, DOCUMENT_VERIFICATION_STATUS.PENDING,
          DOCUMENT_VERIFICATION_STATUS.REQUIRES_RESUBMISSION, DOCUMENT_VERIFICATION_STATUS.REJECTED]

/-- Witness for C7 at the boundary and mid-band scores 90, 85, 70, 60, 40. -/
theorem C7_witness :
    deriveVerificationStatus 90 = DOCUMENT_VERIFICATION_STATUS.APPROVED ∧
    deriveVerificationStatus 85 = DOCUMENT_VERIFICATION_STATUS.APPROVED ∧
    deriveVerificationStatus 70 = DOCUMENT_VERIFICATION_STATUS.PENDING ∧
    deriveVerificationStatus 60 = DOCUMENT_VERIFICATION_STATUS.PENDING ∧
    deriveVerificationStatus 40 = DOCUMENT_VERIFICATION_STATUS.REQUIRES_RESUBMISSION :=
  ⟨(C7_document_status_derivation 90).1 (by decide),
   (C7_document_status_derivation 85).1 (by decide),
   (C7_document_status_derivation 70).2.1 ⟨by decide, by decide⟩,
   (C7_document_status_derivation 60).2.1 ⟨by decide, by decide⟩,
   (C7_document_status_derivation 40).2.2.1 (by decide)⟩

/-- C8: `createRegistrationProcess`, `updateRegistrationStep` and
`verifyRegistrationProcess` fail with the not-found error when the referenced
applicant type or registration process is missing, and on that path return
the storage state unchanged — nothing is created or mutated. -/
theorem C8_notfound_errors_commit_no_state :
    (∀ (st : Storage) (userId applicantTypeId : Nat),
      st.getApplicantType applicantTypeId = none →
      createRegistrationProcess st userId applicantTypeId =
        (.error "Invalid applicant type", st)) ∧
    (∀ (st : Storage) (registrationProcessId newStep : Nat) (completedStep : Option String),
      st.getRegistrationProcess registrationProcessId = none →
      updateRegistrationStep st registrationProcessId newStep completedStep =
        (.error "Registration process not found", st)) ∧
    (∀ (st : Storage) (registrationProcessId adminId : Nat) (approved : Bool)
        (rejectionReason : Option String),
      st.getRegistrationProcess registrationProcessId = none →
      verifyRegistrationProcess st registrationProcessId adminId approved rejectionReason =
        (.error "Registration process not found", st)) := by
  refine ⟨fun st u a h => ?_, fun st r n c h => ?_, fun st r ad ap rr h => ?_⟩
  · unfold createRegistrationProcess
    rw [h]
  · unfold updateRegistrationStep
    rw [h]
  · unfold verifyRegistrationProcess
    rw [h]

/-- Witness for C8 on the empty storage, where every lookup misses. -/
theorem C8_witness :
    createRegistrationProcess emptyStorage 1 2 = (.error "Invalid applicant type", emptyStorage) ∧
    updateRegistrationStep emptyStorage 3 1 (some "account_creation") =
      (.error "Registration process not found", emptyStorage) ∧
    verifyRegistrationProcess emptyStorage 3 1 true none =
      (.error "Registration process not found", emptyStorage) :=
  ⟨C8_notfound_errors_commit_no_state.1 emptyStorage 1 2 rfl,
   C8_notfound_errors_commit_no_state.2.1 emptyStorage 3 1 (some "account_creation") rfl,
   C8_notfound_errors_commit_no_state.2.2 emptyStorage 3 1 true none rfl⟩

/-- C2 counterexample: a `verified` process loses its status on a subsequent
step-completion call — `updateRegistrationStep` overwrites it with
`pending_verification`, so `verified` is not terminal under advance. -/
theorem C2_cex_advance_resets_verified :
    (verifiedStorage.getRegistrationProcess 1).map RegistrationProcess.status =
      some REGISTRATION_STATUS.VERIFIED ∧
    (((updateRegistrationStep verifiedStorage 1 6 none).2.getRegistrationProcess 1).map
      RegistrationProcess.status) = some REGISTRATION_STATUS.PENDING_VERIFICATION ∧
    REGISTRATION_STATUS.PENDING_VERIFICATION ≠ REGISTRATION_STATUS.VERIFIED :=
  ⟨rfl, rfl, by decide⟩

/-- C2 amended: `updateRegistrationStep` recomputes the status solely from
the completed-step count — `pending_verification` when it reaches
`totalSteps` and `incomplete` otherwise — regardless of the prior status, so
`verified` and `rejected` are not preserved by advance (they are assigned
only by `verifyRegistrationProcess`). -/
theorem C2_advance_recomputes_status_from_completed_count :
    ∀ (st : Storage) (registrationProcessId newStep : Nat) (completedStep : Option String)
      (q : RegistrationProcess) (st2 : Storage),
      updateRegistrationStep st registrationProcessId newStep completedStep = (.ok q, st2) →
      q.status = (if q.completedSteps.length ≥ q.totalSteps then
          REGISTRATION_STATUS.PENDING_VERIFICATION
        else REGISTRATION_STATUS.INCOMPLETE) := by
  intro st registrationProcessId newStep completedStep q st2 h
  unfold updateRegistrationStep at h
  cases hg : st.getRegistrationProcess registrationProcessId with
  | none => rw [hg] at h; exact absurd h (by simp)
  | some p =>
    rw [hg] at h
    simp only [Prod.mk.injEq, Except.ok.injEq] at h
    obtain ⟨rfl, rfl⟩ := h
    rfl

/-- Witness for C2 at a concrete advance on `baseStorage`. -/
theorem C2_witness :
    ({ baseProcess with currentStep := 2 } : RegistrationProcess).status =
      (if ({ baseProcess with currentStep := 2 } : RegistrationProcess).completedSteps.length ≥
          ({ baseProcess with currentStep := 2 } : RegistrationProcess).totalSteps then
        REGISTRATION_STATUS.PENDING_VERIFICATION
      else REGISTRATION_STATUS.INCOMPLETE) :=
  C2_advance_recomputes_status_from_completed_count baseStorage 1 2 none _ _ rfl

/-- C3 counterexample: `baseProcess` satisfies `currentStep ≤ totalSteps`,
yet an advance call with `newStep = 10 > totalSteps = 5` produces a process
with `currentStep = 10 > totalSteps` — `updateRegistrationStep` installs
`newStep` unconditionally, so the invariant is not preserved for all
argument values. -/
theorem C3_cex_advance_step_beyond_total :
    baseProcess.currentStep ≤ baseProcess.totalSteps ∧
    (updateRegistrationStep baseStorage 1 10 none).1 =
      .ok { baseProcess with currentStep := 10 } ∧
    ¬ (({ baseProcess with currentStep := 10 } : RegistrationProcess).currentStep ≤
        ({ baseProcess with currentStep := 10 } : RegistrationProcess).totalSteps) :=
  ⟨by decide, rfl, by decide⟩

/-- C3 amended: `currentStep ≤ totalSteps` holds at creation
(`currentStep = 1`, `totalSteps ≥ 1`) and is preserved by finalize, which
leaves both fields unchanged; advance installs `newStep` as `currentStep`
unconditionally, so it preserves the invariant exactly when
`newStep ≤ totalSteps`. -/
theorem C3_invariant_creation_finalize_and_bounded_advance :
    (∀ (st : Storage) (userId applicantTypeId : Nat) (r : RegistrationProcess) (st2 : Storage),
      createRegistrationProcess st userId applicantTypeId = (.ok r, st2) →
      r.currentStep = 1 ∧ 1 ≤ r.totalSteps ∧ r.currentStep ≤ r.totalSteps) ∧
    (∀ (st : Storage) (registrationProcessId newStep : Nat) (completedStep : Option String)
        (p q : RegistrationProcess) (st2 : Storage),
      st.getRegistrationProcess registrationProcessId = some p →
      updateRegistrationStep st registrationProcessId newStep completedStep = (.ok q, st2) →
      q.totalSteps = p.totalSteps ∧ q.currentStep = newStep ∧
        (newStep ≤ p.totalSteps → q.currentStep ≤ q.totalSteps)) ∧
    (∀ (st : Storage) (registrationProcessId adminId : Nat) (approved : Bool)
        (rejectionReason : Option String) (p q : RegistrationProcess) (st2 : Storage),
      st.getRegistrationProcess registrationProcessId = some p →
      verifyRegistrationProcess st registrationProcessId adminId approved rejectionReason =
        (.ok q, st2) →
      q.currentStep = p.currentStep ∧ q.totalSteps = p.totalSteps ∧
        (p.currentStep ≤ p.totalSteps → q.currentStep ≤ q.totalSteps)) := by
  refine ⟨fun st userId applicantTypeId r st2 h => ?_,
          fun st registrationProcessId newStep completedStep p q st2 hg h => ?_,
          fun st registrationProcessId adminId approved rejectionReason p q st2 hg h => ?_⟩
  · unfold createRegistrationProcess at h
    cases hg : st.getApplicantType applicantTypeId with
    | none => rw [hg] at h; exact absurd h (by simp)
    | some applicantType =>
      rw [hg] at h
      simp only [Prod.mk.injEq, Except.ok.injEq] at h
      obtain ⟨rfl, rfl⟩ := h
      refine ⟨rfl, ?_, ?_⟩ <;> split_ifs <;>
        simp [REGISTRATION_STEPS, APPLICANT_TYPE.INDIVIDUAL, APPLICANT_TYPE.ORGANIZATION,
          APPLICANT_TYPE.CORPORATION]
  · unfold updateRegistrationStep at h
    rw [hg] at h
    simp only [Prod.mk.injEq, Except.ok.injEq] at h
    obtain ⟨rfl, rfl⟩ := h
    exact ⟨rfl, rfl, fun hle => hle⟩
  · unfold verifyRegistrationProcess at h
    rw [hg] at h
    simp only [Prod.mk.injEq, Except.ok.injEq] at h
    obtain ⟨rfl, rfl⟩ := h
    exact ⟨rfl, rfl, fun hle => hle⟩

/-- Witness for C3: a concrete creation, an advance with
`newStep ≤ totalSteps`, and a concrete finalize. -/
theorem C3_witness :
    (createdProcessFixture.currentStep = 1 ∧
      1 ≤ createdProcessFixture.totalSteps ∧
      createdProcessFixture.currentStep ≤ createdProcessFixture.totalSteps) ∧
    (advancedProcessFixture.totalSteps = baseProcess.totalSteps ∧
      advancedProcessFixture.currentStep = 3 ∧
      (3 ≤ baseProcess.totalSteps →
        advancedProcessFixture.currentStep ≤ advancedProcessFixture.totalSteps)) :=
  ⟨C3_invariant_creation_finalize_and_bounded_advance.1 baseStorage 7 1 _ _ rfl,
   C3_invariant_creation_finalize_and_bounded_advance.2.1 baseStorage 1 3 none
     baseProcess _ _ rfl rfl⟩

/-- C5: the two reference scoring vectors — requestedAmount 5000 against
budget 100000 with a 350-character description, an organization and duration
4 scores 100 (`preporučeno`); requestedAmount 40000 against budget 100000
with a 50-character description, no organization and duration 30 scores 50
(`odbijeno`) — and the decision thresholds: score ≥ 80 gives `preporučeno`,
score < 60 gives `odbijeno`, and anything between gives `revisit`. -/
theorem C5_scorer_test_vectors :
    (generateAIEvaluation scorerApp1 scorerProgram).score = 100 ∧
    (generateAIEvaluation scorerApp1 scorerProgram).decision = "preporučeno" ∧
    (generateAIEvaluation scorerApp2 scorerProgram).score = 50 ∧
    (generateAIEvaluation scorerApp2 scorerProgram).decision = "odbijeno" ∧
    (∀ (application : Application) (program : Program),
      (80 ≤ (generateAIEvaluation application program).score →
        (generateAIEvaluation application program).decision = "preporučeno") ∧
      ((generateAIEvaluation application program).score < 60 →
        (generateAIEvaluation application program).decision = "odbijeno") ∧
      (60 ≤ (generateAIEvaluation application program).score ∧
          (generateAIEvaluation application program).score < 80 →
        (generateAIEvaluation application program).decision = "revisit")) := by
  set_option maxRecDepth 8000 in
  have hd1 : (descriptionRule scorerApp1).1 = 5 := by decide
  set_option maxRecDepth 8000 in
  have hd2 : (descriptionRule scorerApp2).1 = -5 := by decide
  have hb1 : (budgetRule scorerApp1 scorerProgram).1 = 10 := by
    norm_num [budgetRule, scorerApp1, scorerProgram]
  have hb2 : (budgetRule scorerApp2 scorerProgram).1 = -15 := by
    norm_num [budgetRule, scorerApp2, scorerProgram]
  have hs1 : (generateAIEvaluation scorerApp1 scorerProgram).score = 100 := by
    rw [generateAIEvaluation_score_eq, hb1, hd1]
    decide
  have hs2 : (generateAIEvaluation scorerApp2 scorerProgram).score = 50 := by
    rw [generateAIEvaluation_score_eq, hb2, hd2]
    decide
  refine ⟨hs1, ?_, hs2, ?_, fun application program => ⟨fun h => ?_, fun h => ?_, fun h => ?_⟩⟩
  · rw [generateAIEvaluation_decision_eq, hs1]
    decide
  · rw [generateAIEvaluation_decision_eq, hs2]
    decide
  · rw [generateAIEvaluation_decision_eq]
    split_ifs <;> first | rfl | omega
  · rw [generateAIEvaluation_decision_eq]
    split_ifs <;> first | rfl | omega
  · rw [generateAIEvaluation_decision_eq]
    split_ifs <;> first | rfl | omega

/-- Witness for C5's threshold clauses at the two concrete vectors. -/
theorem C5_witness :
    (generateAIEvaluation scorerApp1 scorerProgram).decision = "preporučeno" ∧
    (generateAIEvaluation scorerApp2 scorerProgram).decision = "odbijeno" :=
  ⟨(C5_scorer_test_vectors.2.2.2.2 scorerApp1 scorerProgram).1
      (by rw [C5_scorer_test_vectors.1]; decide),
   (C5_scorer_test_vectors.2.2.2.2 scorerApp2 scorerProgram).2.1
      (by rw [C5_scorer_test_vectors.2.2.1]; decide)⟩

/-- C6 counterexample: the claim fails at `requestedAmount = 0` — JS
truthiness skips the whole budget block for a zero amount, so no `+10` is
applied even though the ratio 0 is below 0.1 and `budgetTotal > 0`. -/
theorem C6_cex_zero_requested_amount_skips_budget_rule :
    ¬ (∀ (application : Application) (program : Program),
        0 < program.budgetTotal →
        (budgetRule application program).1 = specBudgetDelta application program) := by
  intro h
  have h1 := h zeroAmountApp scorerProgram (by decide)
  have hb : (budgetRule zeroAmountApp scorerProgram).1 = 0 := by
    simp [budgetRule, zeroAmountApp]
  have hs : specBudgetDelta zeroAmountApp scorerProgram = 10 := by
    norm_num [specBudgetDelta, zeroAmountApp, scorerProgram]
  rw [hb, hs] at h1
  exact absurd h1 (by decide)

/-- C6 amended: the budget-ratio rule fires only when `requestedAmount` is
present and nonzero and `budgetTotal` is nonzero (JS truthiness); it then
adds 10 exactly when the ratio is below 0.1 and subtracts 15 exactly when it
exceeds 0.3; for an absent or zero `requestedAmount` no budget adjustment is
made at all. -/
theorem C6_budget_rule_applies_only_for_nonzero_amount :
    ∀ (application : Application) (program : Program) (a : Int),
      (application.requestedAmount = some a → a ≠ 0 → program.budgetTotal ≠ 0 →
        (budgetRule application program).1 =
          (if (a : ℚ) / (program.budgetTotal : ℚ) < 1/10 then 10
           else if (a : ℚ) / (program.budgetTotal : ℚ) > 3/10 then -15
           else 0)) ∧
      (application.requestedAmount = none ∨ application.requestedAmount = some 0 →
        (budgetRule application program).1 = 0) := by
  intro application program a
  constructor
  · intro ha hz hb
    unfold budgetRule
    rw [ha]
    simp only [if_pos (And.intro hz hb)]
    split_ifs <;> rfl
  · intro hcase
    unfold budgetRule
    rcases hcase with h | h <;> rw [h] <;> simp

/-- Witness for C6 at the first scorer vector and at the zero amount. -/
theorem C6_witness :
    (budgetRule scorerApp1 scorerProgram).1 =
      (if ((5000 : Int) : ℚ) / ((scorerProgram.budgetTotal : Int) : ℚ) < 1/10 then 10
       else if ((5000 : Int) : ℚ) / ((scorerProgram.budgetTotal : Int) : ℚ) > 3/10 then -15
       else 0) ∧
    (budgetRule zeroAmountApp scorerProgram).1 = 0 :=
  ⟨(C6_budget_rule_applies_only_for_nonzero_amount scorerApp1 scorerProgram 5000).1
      rfl (by decide) (by decide),
   (C6_budget_rule_applies_only_for_nonzero_amount zeroAmountApp scorerProgram 0).2
      (Or.inr rfl)⟩

/-- C9: advance is idempotent in `completedStepName` — repeating the same
completed step leaves `completedSteps` exactly as after the first call, and
the list never acquires a duplicate (duplicate-freedom is preserved by both
calls). -/
theorem C9_advance_idempotent_in_completed_step :
    ∀ (st : Storage) (registrationProcessId n1 n2 : Nat) (s : String)
      (p q1 : RegistrationProcess) (st1 : Storage) (q2 : RegistrationProcess) (st2 : Storage),
      st.getRegistrationProcess registrationProcessId = some p →
      updateRegistrationStep st registrationProcessId n1 (some s) = (.ok q1, st1) →
      updateRegistrationStep st1 registrationProcessId n2 (some s) = (.ok q2, st2) →
      q2.completedSteps = q1.completedSteps ∧
      (p.completedSteps.Nodup → q1.completedSteps.Nodup ∧ q2.completedSteps.Nodup) := by
  intro st registrationProcessId n1 n2 s p q1 st1 q2 st2 hg h1 h2
  rw [updateRegistrationStep_ok st registrationProcessId n1 (some s) p hg] at h1
  simp only [Prod.mk.injEq, Except.ok.injEq] at h1
  obtain ⟨rfl, rfl⟩ := h1
  have hg2 := getRegistrationProcess_setRegistrationProcess st registrationProcessId p
    (advancedRecord p n1 (some s)) hg rfl
  rw [updateRegistrationStep_ok _ registrationProcessId n2 (some s) _ hg2] at h2
  simp only [Prod.mk.injEq, Except.ok.injEq] at h2
  obtain ⟨rfl, rfl⟩ := h2
  have hcs : (advancedRecord (advancedRecord p n1 (some s)) n2 (some s)).completedSteps =
      (advancedRecord p n1 (some s)).completedSteps := by
    simp [advancedRecord, addCompletedStep_some_idem]
  refine ⟨hcs, fun hnd => ?_⟩
  have h1n : (advancedRecord p n1 (some s)).completedSteps.Nodup := by
    simpa [advancedRecord] using addCompletedStep_nodup p.completedSteps (some s) hnd
  exact ⟨h1n, hcs ▸ h1n⟩

/-- Witness for C9: completing `"account_creation"` twice on `baseStorage`. -/
theorem C9_witness :
    advTwiceFixture.completedSteps = advOnceFixture.completedSteps ∧
    (advOnceFixture.completedSteps.Nodup ∧ advTwiceFixture.completedSteps.Nodup) :=
  ⟨(C9_advance_idempotent_in_completed_step baseStorage 1 3 4 "account_creation"
      baseProcess advOnceFixture _ advTwiceFixture _ rfl rfl rfl).1,
   (C9_advance_idempotent_in_completed_step baseStorage 1 3 4 "account_creation"
      baseProcess advOnceFixture _ advTwiceFixture _ rfl rfl rfl).2 (by decide)⟩

/-- C10: for every application and program the scorer's output lies in
[50, 100] — the four adjustments to the base 75 add at most 25 and subtract
at most 25 in total — so the unclamped score never leaves [0, 100], and
`odbijeno` is reachable only for scores in [50, 60). -/
theorem C10_score_bounds :
    ∀ (application : Application) (program : Program),
      50 ≤ (generateAIEvaluation application program).score ∧
      (generateAIEvaluation application program).score ≤ 100 ∧
      ((generateAIEvaluation application program).decision = "odbijeno" →
        50 ≤ (generateAIEvaluation application program).score ∧
        (generateAIEvaluation application program).score < 60) := by
  intro application program
  have hb' : -15 ≤ (budgetRule application program).1 ∧
      (budgetRule application program).1 ≤ 10 := by
    rcases budgetRule_fst_cases application program with h | h | h <;> rw [h] <;>
      exact ⟨by decide, by decide⟩
  have hd' : -5 ≤ (descriptionRule application).1 ∧ (descriptionRule application).1 ≤ 5 := by
    rcases descriptionRule_fst_cases application with h | h <;> rw [h] <;>
      exact ⟨by decide, by decide⟩
  have ho' : 0 ≤ (organizationRule application).1 ∧ (organizationRule application).1 ≤ 5 := by
    rcases organizationRule_fst_cases application with h | h <;> rw [h] <;>
      exact ⟨by decide, by decide⟩
  have ht' : -5 ≤ (durationRule application).1 ∧ (durationRule application).1 ≤ 5 := by
    rcases durationRule_fst_cases application with h | h | h <;> rw [h] <;>
      exact ⟨by decide, by decide⟩
  have hs := generateAIEvaluation_score_eq application program
  have hlow : 50 ≤ (generateAIEvaluation application program).score := by
    rw [hs]; omega
  have hhigh : (generateAIEvaluation application program).score ≤ 100 := by
    rw [hs]; omega
  refine ⟨hlow, hhigh, fun h => ?_⟩
  rw [generateAIEvaluation_decision_eq] at h
  split_ifs at h with h1 h2
  · exact absurd h (by decide)
  · exact ⟨hlow, h2⟩
  · exact absurd h (by decide)

/-- Witness for C10 at the second scorer vector, whose decision is
`odbijeno`. -/
theorem C10_witness :
    50 ≤ (generateAIEvaluation scorerApp2 scorerProgram).score ∧
    (generateAIEvaluation scorerApp2 scorerProgram).score < 60 :=
  (C10_score_bounds scorerApp2 scorerProgram).2.2 (by
    have hb2 : (budgetRule scorerApp2 scorerProgram).1 = -15 := by
      norm_num [budgetRule, scorerApp2, scorerProgram]
    set_option maxRecDepth 8000 in
    have hd2 : (descriptionRule scorerApp2).1 = -5 := by decide
    rw [generateAIEvaluation_decision_eq, generateAIEvaluation_score_eq, hb2, hd2]
    decide)

/-- C1 counterexample: with the required individual documents and four
approved uploads that are all duplicates of `id_card_passport`, the code
reports `allVerified = true` although `resume_cv` (a required type) has zero
approved uploads — the comparison counts approved uploads with multiplicity,
not distinct approved types. -/
theorem C1_cex_duplicate_uploads_satisfy_allVerified :
    checkDocumentVerificationStatus duplicateUploadStorage 1 =
      .ok { allUploaded := false, allVerified := true,
            pendingDocuments := ["resume_cv", "motivation_letter", "signed_declaration"],
            rejectedDocuments := [] } ∧
    "resume_cv" ∈ REQUIRED_DOCUMENTS individualType.name ∧
    "resume_cv" ∉ approvedDocTypes duplicateUploadStorage 1 :=
  ⟨rfl, by decide, by decide⟩

/-- C1 amended: `allVerified` compares the multiplicity count of approved
uploads with the required count, so it is `false` whenever some required type
has zero approved uploads, provided every approved upload is of a required
type and no type was approved more than once; duplicate approved uploads can
instead compensate for a missing type. -/
theorem C1_allVerified_false_when_type_missing_without_duplicates :
    ∀ (st : Storage) (registrationProcessId : Nat) (process : RegistrationProcess)
      (applicantType : ApplicantType) (missing : String) (res : DocumentCheckResult),
      st.getRegistrationProcess registrationProcessId = some process →
      st.getApplicantType process.applicantTypeId = some applicantType →
      (approvedDocTypes st registrationProcessId).Nodup →
      (∀ t ∈ approvedDocTypes st registrationProcessId,
        t ∈ REQUIRED_DOCUMENTS applicantType.name) →
      missing ∈ REQUIRED_DOCUMENTS applicantType.name →
      missing ∉ approvedDocTypes st registrationProcessId →
      checkDocumentVerificationStatus st registrationProcessId = .ok res →
      res.allVerified = false := by
  intro st registrationProcessId process applicantType missing res hp ht hnd hsub hm hmA hok
  unfold checkDocumentVerificationStatus at hok
  simp only [hp, ht, Except.ok.injEq] at hok
  subst hok
  have hlt : (approvedDocTypes st registrationProcessId).length <
      (REQUIRED_DOCUMENTS applicantType.name).length :=
    length_lt_of_nodup_subset_avoiding _ _ missing hnd
      (REQUIRED_DOCUMENTS_nodup applicantType.name) hsub hm hmA
  change ((approvedDocTypes st registrationProcessId).length ==
      (REQUIRED_DOCUMENTS applicantType.name).length) = false
  exact beq_eq_false_iff_ne.mpr (Nat.ne_of_lt hlt)

/-- Witness for C1 on `missingOneStorage`, where each approved upload is of a
distinct required type and `signed_declaration` is missing. -/
theorem C1_witness :
    ({ allUploaded := false, allVerified := false,
       pendingDocuments := ["signed_declaration"], rejectedDocuments := [] } :
      DocumentCheckResult).allVerified = false :=
  C1_allVerified_false_when_type_missing_without_duplicates missingOneStorage 1
    baseProcess individualType "signed_declaration" _ rfl rfl (by decide) (by decide)
    (by decide) (by decide) rfl

/-- C4: for every email whose lower-cased domain is in the disallowed set —
all of which also satisfy the organization suffix pattern — validation for
ORGANIZATION fails with the personal-email-domain message: the
disallowed-domain check runs first and short-circuits. -/
theorem C4_disallowed_domain_short_circuits :
    (∀ domain ∈ disallowedDomains, orgDomainPattern domain = true) ∧
    (∀ (email rawDomain : String),
      (jsSplit email '@')[1]? = some rawDomain →
      jsToLower rawDomain ∈ disallowedDomains →
      validateEmailForApplicantType email APPLICANT_TYPE.ORGANIZATION =
        { valid := false,
          message := some "Organizations cannot use personal email domains like gmail.com, yahoo.com, etc." }) := by
  refine ⟨by decide, fun email rawDomain h1 h2 => ?_⟩
  have he : ¬ email = "" := by
    rintro rfl
    rw [show jsSplit "" '@' = [""] from rfl] at h1
    simp at h1
  simp only [disallowedDomains, List.mem_cons, List.not_mem_nil, or_false] at h2
  rcases h2 with h | h | h | h | h | h <;>
    simp [validateEmailForApplicantType, if_neg he, h1, h, EMAIL_VALIDATION,
      APPLICANT_TYPE.ORGANIZATION, APPLICANT_TYPE.INDIVIDUAL, APPLICANT_TYPE.CORPORATION,
      disallowedDomains]

/-- Witness for C4 at `info@gmail.com`. -/
theorem C4_witness :
    validateEmailForApplicantType "info@gmail.com" APPLICANT_TYPE.ORGANIZATION =
      { valid := false,
        message := some "Organizations cannot use personal email domains like gmail.com, yahoo.com, etc." } :=
  C4_disallowed_domain_short_circuits.2 "info@gmail.com" "gmail.com" (by decide) (by decide)

end GrantPlatform
